import Mathlib

/-!
Shallow embedding of the message / channel / notification core of the
Slack-clone backend (Express + Mongoose + Socket.IO).  Collections are
modelled as Lean lists of records, `findById` / `findOne` as `List.find?`,
`save` as in-place replacement, and `create` as appending a fresh record.
Times are integer milliseconds (JavaScript `Date.now()`).
-/

namespace SlackClone

abbrev UserId := Nat
abbrev ChannelId := Nat
abbrev MsgId := Nat
abbrev NotifId := Nat

/-- User document (backend/models/User.js).  Fields not used by the
messaging core (email uniqueness, password hash, bio) are elided. -/
structure User where
  _id : UserId
  display_name : String
  is_online : Bool
  last_seen : Int
  created_at : Int
deriving DecidableEq

inductive ChannelType where
  | publicCh
  | dm
deriving DecidableEq

/-- Channel document (backend/models/Channel.js). -/
structure Channel where
  _id : ChannelId
  name : String
  type : ChannelType
  created_by : UserId
  members : List UserId
  created_at : Int
deriving DecidableEq

/-- Reaction subdocument (reactionSchema in backend/models/Message.js). -/
structure Reaction where
  emoji : String
  user_id : UserId
deriving DecidableEq

/-- Message document (backend/models/Message.js).  The optional file
fields (file_url, file_type, file_metadata) belong to the external
attachment store and are elided; the controller branch that guards file
uploads is kept via an explicit `hasFile` request flag. -/
structure Message where
  _id : MsgId
  content : String
  author_id : UserId
  channel_id : ChannelId
  thread_parent_id : Option MsgId
  reactions : List Reaction
  is_deleted : Bool
  is_edited : Bool
  is_pinned : Bool
  created_at : Int
  updated_at : Int
deriving DecidableEq

inductive NotificationType where
  | mention
  | message
  | reply
  | channel_invite
deriving DecidableEq

/-- Notification document (backend/models/Notification.js). -/
structure Notification where
  _id : NotifId
  recipient_id : UserId
  sender_id : UserId
  type : NotificationType
  message_id : Option MsgId
  channel_id : Option ChannelId
  content : String
  is_read : Bool
deriving DecidableEq

/-- The durable collections. -/
structure Store where
  users : List User
  channels : List Channel
  messages : List Message
  notifications : List Notification
deriving DecidableEq

/-- JavaScript `String.prototype.trim()`: strip leading and trailing
whitespace. -/
def jsTrim (s : String) : String :=
  String.mk (((s.data.dropWhile Char.isWhitespace).reverse.dropWhile
    Char.isWhitespace).reverse)

/-- ASCII lowercasing, used to model case-insensitive comparison (the
`'i'` regex flag). -/
def lowerStr (s : String) : String :=
  String.mk (s.data.map Char.toLower)

def findUser (users : List User) (id : UserId) : Option User :=
  users.find? (fun u => u._id == id)

def findChannel (channels : List Channel) (id : ChannelId) : Option Channel :=
  channels.find? (fun c => c._id == id)

def findMessage (messages : List Message) (id : MsgId) : Option Message :=
  messages.find? (fun m => m._id == id)

/-- `document.save()` on a fetched message: replace the stored record. -/
def saveMessage (messages : List Message) (id : MsgId) (m : Message) : List Message :=
  messages.map (fun x => if x._id == id then m else x)

/-- `channel.save()`: replace the stored record. -/
def saveChannel (channels : List Channel) (id : ChannelId) (c : Channel) : List Channel :=
  channels.map (fun x => if x._id == id then c else x)

/-- `AppError(message, statusCode)` from backend/middleware/errorHandler. -/
structure AppError where
  message : String
  statusCode : Nat
deriving DecidableEq

/-- Outcome of an HTTP controller: either a JSON success response with a
status code, or `next(new AppError(...))`. -/
inductive HttpResult (α : Type) where
  | ok (status : Nat) (value : α)
  | err (e : AppError)
deriving DecidableEq

def HttpResult.isOk {α : Type} : HttpResult α → Bool
  | .ok _ _ => true
  | .err _ => false

/-- `canBeEdited` (backend/models/Message.js): the creation time is
strictly later than five minutes before now, and the message is not
deleted.  Times are in milliseconds. -/
def Message.canBeEdited (m : Message) (now : Int) : Bool :=
  decide (now - 5 * 60 * 1000 < m.created_at) && !m.is_deleted

/-- `addReaction` (backend/models/Message.js): no-op when the identical
(emoji, user) pair already exists, otherwise push a new reaction. -/
def Message.addReaction (m : Message) (emoji : String) (userId : UserId) : Message :=
  if m.reactions.any (fun r => r.emoji == emoji && r.user_id == userId) then m
  else { m with reactions := m.reactions ++ [{ emoji := emoji, user_id := userId }] }

/-- `removeReaction` (backend/models/Message.js): filter out the
matching (emoji, user) pair. -/
def Message.removeReaction (m : Message) (emoji : String) (userId : UserId) : Message :=
  { m with reactions := m.reactions.filter (fun r => !(r.emoji == emoji && r.user_id == userId)) }

/-- JavaScript values that can sit in the `thread_parent_id` slot of a
message fetched by `Message.findById` without `populate`: `null` or a
bare ObjectId. -/
inductive JsVal where
  | nullV
  | undefinedV
  | objectIdV (id : Nat)
deriving DecidableEq

def JsVal.truthy : JsVal → Bool
  | .nullV => false
  | .undefinedV => false
  | .objectIdV _ => true

/-- JS property access `.thread_parent_id` on the slot value: an
ObjectId instance has no `thread_parent_id` property, so the access
yields `undefined`.  (On `null` it would throw, but the source only
evaluates it behind a truthiness guard that short-circuits.) -/
def JsVal.getThreadParentId : JsVal → JsVal
  | _ => .undefinedV

def threadParentSlot (m : Message) : JsVal :=
  match m.thread_parent_id with
  | none => .nullV
  | some i => .objectIdV i

/-- The guard `parentMessage.thread_parent_id &&
parentMessage.thread_parent_id.thread_parent_id` from the HTTP
`createMessage` controller, under JS truthiness. -/
def threadDepthGuard (parent : Message) : Bool :=
  (threadParentSlot parent).truthy && ((threadParentSlot parent).getThreadParentId).truthy

/-- `Message.create` with the controller's messageData and schema
defaults. -/
def mkMessage (newId : MsgId) (content : String) (authorId : UserId)
    (channelId : ChannelId) (parent : Option MsgId) (now : Int) : Message :=
  { _id := newId, content := content, author_id := authorId,
    channel_id := channelId, thread_parent_id := parent, reactions := [],
    is_deleted := false, is_edited := false, is_pinned := false,
    created_at := now, updated_at := now }

/-- `(!content || content.trim() === '')` on the optional request body
field. -/
def contentBlank : Option String → Bool
  | none => true
  | some c => jsTrim c == ""

/-- `content && content.length > 2000` on the optional request body
field. -/
def contentTooLong : Option String → Bool
  | none => false
  | some c => c.length > 2000

/-- The thread-parent checks of the HTTP `createMessage` controller:
parent lookup, then the (as-written) depth guard. -/
def threadParentError (store : Store) : Option MsgId → Option AppError
  | none => none
  | some pid =>
    match findMessage store.messages pid with
    | none => some ⟨"Parent message not found", 404⟩
    | some parentMessage =>
      if threadDepthGuard parentMessage then
        some ⟨"Thread depth limit reached (max 3 levels)", 400⟩
      else none

/-- HTTP `createMessage` controller (POST /api/messages).  `hasFile`
models the presence of `req.file`; the uploaded bytes live in the
external attachment store and are elided. -/
def createMessage (store : Store) (now : Int) (userId : UserId)
    (content : Option String) (channel_id : ChannelId)
    (thread_parent_id : Option MsgId) (hasFile : Bool) (newId : MsgId) :
    Store × HttpResult Message :=
  if contentBlank content && !hasFile then
    (store, .err ⟨"Message must have content or a file attachment", 400⟩)
  else if contentTooLong content then
    (store, .err ⟨"Message cannot exceed 2000 characters", 400⟩)
  else
    match findChannel store.channels channel_id with
    | none => (store, .err ⟨"Channel not found", 404⟩)
    | some channel =>
      if !(channel.members.contains userId) then
        (store, .err ⟨"You are not a member of this channel", 403⟩)
      else if hasFile && !(channel.type == ChannelType.dm) then
        (store, .err ⟨"File uploads are only allowed in direct messages", 400⟩)
      else
        match threadParentError store thread_parent_id with
        | some e => (store, .err e)
        | none =>
          let m := mkMessage newId (content.getD "") userId channel_id
            (match thread_parent_id with | some pid => some pid | none => none) now
          ({ store with messages := store.messages ++ [m] }, .ok 201 m)

/-- HTTP `editMessage` controller (PATCH /api/messages/:id). -/
def editMessage (store : Store) (now : Int) (userId : UserId) (id : MsgId)
    (content : String) : Store × HttpResult Message :=
  if jsTrim content == "" then
    (store, .err ⟨"Message content is required", 400⟩)
  else if content.length > 2000 then
    (store, .err ⟨"Message cannot exceed 2000 characters", 400⟩)
  else
    match findMessage store.messages id with
    | none => (store, .err ⟨"Message not found", 404⟩)
    | some message =>
      if !(message.author_id == userId) then
        (store, .err ⟨"Not authorized to edit this message", 403⟩)
      else if !(message.canBeEdited now) then
        (store, .err ⟨"Message can only be edited within 5 minutes of sending", 400⟩)
      else
        let m := { message with content := content, is_edited := true, updated_at := now }
        ({ store with messages := saveMessage store.messages id m }, .ok 200 m)

/-- HTTP `pinMessage` controller (POST /api/messages/:id/pin). -/
def pinMessage (store : Store) (userId : UserId) (id : MsgId) :
    Store × HttpResult Message :=
  match findMessage store.messages id with
  | none => (store, .err ⟨"Message not found", 404⟩)
  | some message =>
    if message.is_deleted then
      (store, .err ⟨"Cannot pin a deleted message", 400⟩)
    else
      match findChannel store.channels message.channel_id with
      | none => (store, .err ⟨"Channel not found", 404⟩)
      | some channel =>
        if !(channel.members.contains userId) then
          (store, .err ⟨"You are not a member of this channel", 403⟩)
        else
          let m := { message with is_pinned := true }
          ({ store with messages := saveMessage store.messages id m }, .ok 200 m)

/-- HTTP `unpinMessage` controller (POST /api/messages/:id/unpin). -/
def unpinMessage (store : Store) (userId : UserId) (id : MsgId) :
    Store × HttpResult Message :=
  match findMessage store.messages id with
  | none => (store, .err ⟨"Message not found", 404⟩)
  | some message =>
    if !message.is_pinned then
      (store, .err ⟨"Message is not pinned", 400⟩)
    else
      match findChannel store.channels message.channel_id with
      | none => (store, .err ⟨"Channel not found", 404⟩)
      | some channel =>
        if !(channel.members.contains userId) then
          (store, .err ⟨"You are not a member of this channel", 403⟩)
        else
          let m := { message with is_pinned := false }
          ({ store with messages := saveMessage store.messages id m }, .ok 200 m)

/-- ASCII word characters, i.e. the JS regex class `\w`. -/
def isWordChar (c : Char) : Bool :=
  (c.isAlpha || c.isDigit) || c == '_'

/-- Left-to-right scan implementing the global regex `/@(\w+)/g`.  The
state is `none` outside a candidate match and `some w` when an `@` has
been consumed and `w` holds the word characters read so far (reversed).
A token is emitted exactly where the regex reports a match, in source
order and with duplicates kept, matching what
`content.match(mentionRegex)` produces (modulo the dropped `@`). -/
def mentionScan : Option (List Char) → List Char → List String
  | none, [] => []
  | some w, [] => if w.isEmpty then [] else [String.mk w.reverse]
  | none, c :: cs =>
    if c == '@' then mentionScan (some []) cs else mentionScan none cs
  | some w, c :: cs =>
    if isWordChar c then mentionScan (some (c :: w)) cs
    else if w.isEmpty then
      if c == '@' then mentionScan (some []) cs else mentionScan none cs
    else
      String.mk w.reverse ::
        (if c == '@' then mentionScan (some []) cs else mentionScan none cs)

def extractMentions (s : String) : List String :=
  mentionScan none s.data

/-- `User.findOne({ display_name: { $regex: new RegExp('^'+u+'$', 'i') } })`:
the first user whose display name equals the token case-insensitively
(the token matched `\w+`, so it has no regex metacharacters). -/
def findUserByName (users : List User) (name : String) : Option User :=
  users.find? (fun u => lowerStr u.display_name == lowerStr name)

/-- The notification record built by `processMentions` for one resolved
mention. -/
def mkMentionNotification (nid : NotifId) (recipient : User) (sender : User)
    (m : Message) : Notification :=
  { _id := nid, recipient_id := recipient._id, sender_id := m.author_id,
    type := .mention, message_id := some m._id, channel_id := some m.channel_id,
    content := sender.display_name ++ " mentioned you in a message",
    is_read := false }

/-- The `for (const mention of mentions)` loop of `processMentions`
(socketService.js): resolve each token, skip unresolved tokens and
self-mentions, create a notification otherwise.  If the author lookup
fails, `sender.display_name` throws and the surrounding try/catch stops
the whole loop; notifications already created persist.  `nid` supplies
the store-assigned ids of newly created notifications. -/
def mentionLoop (users : List User) (message : Message) :
    List String → NotifId → List Notification
  | [], _ => []
  | w :: ws, nid =>
    match findUserByName users w with
    | none => mentionLoop users message ws nid
    | some u =>
      if u._id == message.author_id then mentionLoop users message ws nid
      else
        match findUser users message.author_id with
        | none => []
        | some sender =>
          mkMentionNotification nid u sender message ::
            mentionLoop users message ws (nid + 1)

/-- The notifications created by one `processMentions(message)` run. -/
def processMentionsNotifs (users : List User) (message : Message)
    (nid0 : NotifId) : List Notification :=
  mentionLoop users message (extractMentions message.content) nid0

/-- `processMentions(message)` as a store transformer: each created
notification is persisted by `Notification.createNotification`. -/
def processMentions (store : Store) (message : Message) (nid0 : NotifId) : Store :=
  { store with notifications :=
      store.notifications ++ processMentionsNotifs store.users message nid0 }

/-- Socket acknowledgment payload. -/
inductive Ack where
  | success (m : Message)
  | failure (error : String)
deriving DecidableEq

def Ack.isSuccess : Ack → Bool
  | .success _ => true
  | .failure _ => false

/-- The `message:send` live-connection handler (socketService.js).  It
calls `Message.create` directly: only mongoose schema validation runs
(content maxlength 2000); there is no channel lookup, no membership
check, and no thread-depth check on this path.  After the create it
runs `processMentions`. -/
def messageSendHandler (store : Store) (now : Int) (userId : UserId)
    (content : String) (channel_id : ChannelId)
    (thread_parent_id : Option MsgId) (newId : MsgId) (nid0 : NotifId) :
    Store × Ack :=
  if content.length > 2000 then
    (store, .failure "Message validation failed")
  else
    let message := mkMessage newId content userId channel_id thread_parent_id now
    let st1 := { store with messages := store.messages ++ [message] }
    (processMentions st1 message nid0, .success message)

/-- `updateUserStatus(userId, isOnline)` (socketService.js): an
unconditional boolean overwrite of `is_online` plus a `last_seen`
stamp — there is no session counting. -/
def updateUserStatus (users : List User) (userId : UserId) (isOnline : Bool)
    (now : Int) : List User :=
  users.map (fun u =>
    if u._id == userId then { u with is_online := isOnline, last_seen := now }
    else u)

/-- Effect of the `io.on('connection')` handler on the user collection:
`updateUserStatus(socket.user.id, true)`. -/
def onConnectionUsers (users : List User) (userId : UserId) (now : Int) : List User :=
  updateUserStatus users userId true now

/-- Effect of the `socket.on('disconnect')` handler on the user
collection: `updateUserStatus(socket.user.id, false)`. -/
def onDisconnectUsers (users : List User) (userId : UserId) (now : Int) : List User :=
  updateUserStatus users userId false now

/-- Outcome of the `leaveChannel` controller. -/
inductive LeaveOutcome where
  | channelDeleted
  | left
  | failed (e : AppError)
deriving DecidableEq

/-- `User.findOne({ _id: { $in: members, $ne: leaver } }).sort({ created_at: 1 })`:
among the users whose id is a member other than the leaver, the one
with the earliest `created_at` (first in collection order among ties). -/
def findOldestMember (users : List User) (memberIds : List UserId)
    (excludeId : UserId) : Option User :=
  (users.filter (fun u => memberIds.contains u._id && u._id != excludeId)).argmin
    User.created_at

/-- HTTP `leaveChannel` controller (POST /api/channels/:id/leave). -/
def leaveChannel (store : Store) (userId : UserId) (id : ChannelId) :
    Store × LeaveOutcome :=
  match findChannel store.channels id with
  | none => (store, .failed ⟨"Channel not found", 404⟩)
  | some channel =>
    if !(channel.type == ChannelType.publicCh) then
      (store, .failed ⟨"Cannot leave a non-public channel", 400⟩)
    else if !(channel.members.contains userId) then
      (store, .failed ⟨"You are not a member of this channel", 400⟩)
    else
      let ch1 :=
        if channel.created_by == userId && channel.members.length > 1 then
          match findOldestMember store.users channel.members userId with
          | some oldest => { channel with created_by := oldest._id }
          | none => channel
        else channel
      let remaining := ch1.members.filter (fun mId => mId != userId)
      if remaining.isEmpty then
        ({ store with channels := store.channels.filter (fun c => c._id != id) },
          .channelDeleted)
      else
        ({ store with channels :=
            saveChannel store.channels id { ch1 with members := remaining } },
          .left)

/-- `Channel.findDmChannel(u1, u2)` (backend/models/Channel.js):
`findOne({ type: 'dm', members: { $all: [u1, u2], $size: 2 } })`. -/
def findDmChannel (channels : List Channel) (u1 u2 : UserId) : Option Channel :=
  channels.find? (fun c =>
    c.type == ChannelType.dm && c.members.length == 2 &&
      c.members.contains u1 && c.members.contains u2)

/-- HTTP `createDmChannel` controller (POST /api/channels/dm): return
the existing DM channel for the pair if one is found, otherwise create
a fresh one with both users as members.  (The pre-save hook does not
add the creator again because it is already a member.) -/
def createDmChannel (store : Store) (userId otherId : UserId) (now : Int)
    (newId : ChannelId) : Store × HttpResult Channel :=
  match findUser store.users otherId with
  | none => (store, .err ⟨"User not found", 404⟩)
  | some _ =>
    match findDmChannel store.channels userId otherId with
    | some existing => (store, .ok 200 existing)
    | none =>
      let channel : Channel :=
        { _id := newId,
          name := "dm-" ++ toString userId ++ "-" ++ toString otherId,
          type := .dm, created_by := userId,
          members := [userId, otherId], created_at := now }
      ({ store with channels := store.channels ++ [channel] }, .ok 201 channel)

/-- Static `Notification.markAsRead(recipientId, notificationIds = [])`
(backend/models/Notification.js): `updateMany` on the filter
`{ recipient_id }`, extended with `{ _id: { $in: ids } }` when a
non-empty id list was passed. -/
def Notification.markAsRead (notifications : List Notification)
    (recipientId : UserId) (notificationIds : List NotifId) : List Notification :=
  notifications.map (fun n =>
    if n.recipient_id == recipientId &&
        (notificationIds.isEmpty || notificationIds.contains n._id) then
      { n with is_read := true }
    else n)

/-- The `markAsRead` controller (PATCH /api/notifications/read): forward
`ids` when the body holds a non-empty array, otherwise call the static
method with its default empty list. -/
def markAsReadController (notifications : List Notification) (userId : UserId)
    (ids : Option (List NotifId)) : List Notification :=
  match ids with
  | some l =>
    if !l.isEmpty then Notification.markAsRead notifications userId l
    else Notification.markAsRead notifications userId []
  | none => Notification.markAsRead notifications userId []

/-- One client-driven reaction mutation on a message, as dispatched by
the reaction endpoints once their lookup and state checks pass. -/
inductive ReactionOp where
  | add (emoji : String) (userId : UserId)
  | remove (emoji : String) (userId : UserId)
deriving DecidableEq

def applyReactionOp (m : Message) : ReactionOp → Message
  | .add emoji userId => m.addReaction emoji userId
  | .remove emoji userId => m.removeReaction emoji userId

def applyReactionOps (m : Message) (ops : List ReactionOp) : Message :=
  ops.foldl applyReactionOp m

/-- The (emoji, user) key of a reaction entry. -/
def Reaction.key (r : Reaction) : String × UserId :=
  (r.emoji, r.user_id)

/-- The §3 invariant: no two reaction entries share an (emoji, user)
pair. -/
def reactionsUnique (m : Message) : Prop :=
  (m.reactions.map Reaction.key).Nodup

/-! ### Concrete fixtures -/

def c1Alice : User := ⟨1, "alice", false, 0, 0⟩
def c1Bob : User := ⟨2, "bob", false, 0, 0⟩
def c1Channel : Channel := ⟨10, "general", .publicCh, 2, [2], 0⟩
def c1Store : Store := ⟨[c1Alice, c1Bob], [c1Channel], [], []⟩

def c2User : User := ⟨1, "ann", false, 0, 0⟩
def c2Channel : Channel := ⟨10, "general", .publicCh, 1, [1], 0⟩
def c2Root : Message := mkMessage 20 "root" 1 10 none 0
def c2Reply1 : Message := mkMessage 21 "reply" 1 10 (some 20) 0
def c2Reply2 : Message := mkMessage 22 "reply to reply" 1 10 (some 21) 0
def c2Store : Store := ⟨[c2User], [c2Channel], [c2Root, c2Reply1, c2Reply2], []⟩

def c3Users : List User := [⟨1, "carol", false, 0, 0⟩]

def c4Alice : User := ⟨1, "Alice", false, 0, 0⟩
def c4Bob : User := ⟨2, "Bob", false, 0, 0⟩
def c4Users : List User := [c4Alice, c4Bob]
def c4Msg : Message := mkMessage 30 "hi @Bob hi @Bob" 1 10 none 0

def c5User : User := ⟨1, "pat", false, 0, 0⟩
def c5Channel : Channel := ⟨10, "general", .publicCh, 1, [1], 0⟩
def c5Pinned : Message := { mkMessage 30 "pinned note" 1 10 none 0 with is_pinned := true }
def c5DeletedPinned : Message :=
  { mkMessage 31 "[This message has been deleted]" 1 10 none 0 with
      is_pinned := true, is_deleted := true }
def c5Store : Store := ⟨[c5User], [c5Channel], [c5Pinned, c5DeletedPinned], []⟩

/-! ### Claim theorems -/

/-- Claim C1: the claim states that on either transport a
message-create by a non-member fails with a NotMember error and no
message is created, both transports going through the same gate.  The
HTTP controller indeed rejects (403, store unchanged), but the
live-connection `message:send` handler performs no membership check:
the same request from the same non-member acknowledges success and
persists the message.  This evaluates both transports at that input. -/
theorem socket_send_bypasses_membership_gate :
    c1Channel.members.contains c1Alice._id = false
    ∧ createMessage c1Store 5000 c1Alice._id (some "hi") c1Channel._id none false 100
        = (c1Store, .err ⟨"You are not a member of this channel", 403⟩)
    ∧ (messageSendHandler c1Store 5000 c1Alice._id "hi" c1Channel._id none 100 50).2
        = Ack.success (mkMessage 100 "hi" c1Alice._id c1Channel._id none 5000)
    ∧ (messageSendHandler c1Store 5000 c1Alice._id "hi" c1Channel._id none 100 50).1.messages
        = [mkMessage 100 "hi" c1Alice._id c1Channel._id none 5000] := by
  decide

/-- Claim C2: the claim states that a reply whose parent already has a
non-null grandparent is rejected with ThreadDepthExceeded.  In the
store below, message 22 replies to 21 which replies to 20, so parent 22
has the non-null grandparent 20; yet the HTTP controller accepts the
reply (its guard reads `.thread_parent_id` off an unpopulated ObjectId,
which is always undefined) and the live-connection handler has no depth
check at all: both create the fourth-level message. -/
theorem createMessage_accepts_fourth_level_reply :
    findMessage c2Store.messages 22 = some c2Reply2
    ∧ c2Reply2.thread_parent_id = some 21
    ∧ findMessage c2Store.messages 21 = some c2Reply1
    ∧ c2Reply1.thread_parent_id = some 20
    ∧ (createMessage c2Store 1000 1 (some "deep") 10 (some 22) false 23).2
        = HttpResult.ok 201 (mkMessage 23 "deep" 1 10 (some 22) 1000)
    ∧ (messageSendHandler c2Store 1000 1 "deep" 10 (some 22) 23 50).2
        = Ack.success (mkMessage 23 "deep" 1 10 (some 22) 1000) := by
  decide

/-- Claim C3: the claim states presence is a per-user session count, so
a user holding two concurrent sessions stays online when one of them
disconnects.  The code keeps no count: the connect handler writes
`is_online := true` and the disconnect handler writes
`is_online := false` unconditionally.  After carol opens two
connections and closes one — the other still open — she is marked
offline, and her `last_seen` was already overwritten by each connect. -/
theorem disconnect_ignores_remaining_sessions :
    ((findUser (onConnectionUsers (onConnectionUsers c3Users 1 10) 1 20) 1).map
        User.is_online = some true)
    ∧ ((findUser (onDisconnectUsers
          (onConnectionUsers (onConnectionUsers c3Users 1 10) 1 20) 1 30) 1).map
        User.is_online = some false) := by
  decide

/-- Claim C4, counterexample: Alice's message mentions Bob's display
name twice; the claim says this yields exactly one mention
notification for Bob, but the loop creates one per occurrence — two. -/
theorem duplicate_mention_not_deduplicated :
    ¬ ((processMentionsNotifs c4Users c4Msg 100).filter
        (fun n => n.recipient_id == 2)).length = 1
    ∧ ((processMentionsNotifs c4Users c4Msg 100).filter
        (fun n => n.recipient_id == 2)).length = 2 := by
  decide

/-- Claim C5, counterexample: message 30 is already pinned and not
deleted, yet `pinMessage` succeeds (no AlreadyInState error); message
31 is deleted and pinned, yet `unpinMessage` succeeds (no deletion
check on the unpin path). -/
theorem pin_unpin_missing_state_checks :
    c5Pinned.is_pinned = true
    ∧ c5Pinned.is_deleted = false
    ∧ (pinMessage c5Store 1 30).2.isOk = true
    ∧ c5DeletedPinned.is_deleted = true
    ∧ (unpinMessage c5Store 1 31).2.isOk = true := by
  decide

/-- Every notification emitted by the mention loop goes to a user other
than the message author and has type mention. -/
theorem mentionLoop_recipient_ne_author (users : List User) (message : Message) :
    ∀ (ws : List String) (nid : NotifId) (n : Notification),
      n ∈ mentionLoop users message ws nid →
      n.recipient_id ≠ message.author_id ∧ n.type = NotificationType.mention := by
  intro ws
  induction ws with
  | nil =>
    intro nid n h
    simp [mentionLoop] at h
  | cons w ws ih =>
    intro nid n h
    rw [mentionLoop] at h
    split at h
    · exact ih nid n h
    · rename_i u _
      split at h
      · exact ih nid n h
      · rename_i hne
        split at h
        · simp at h
        · rename_i sender _
          rcases List.mem_cons.mp h with h1 | h2
          · subst h1
            refine ⟨?_, rfl⟩
            simpa [mkMentionNotification] using (by simpa using hne : ¬u._id = message.author_id)
          · exact ih (nid + 1) n h2

/-- Claim C4 (amended): mention processing never notifies the message's
own author (and a pure self-mention yields zero notifications), but
recipients are not deduplicated — a message that mentions the same
other member's display name twice produces one mention notification
per occurrence, hence two for that member. -/
theorem processMentions_self_skip_no_dedup :
    (∀ (users : List User) (message : Message) (nid0 : NotifId) (n : Notification),
      n ∈ processMentionsNotifs users message nid0 →
      n.recipient_id ≠ message.author_id ∧ n.type = NotificationType.mention)
    ∧ processMentionsNotifs c4Users (mkMessage 31 "hey @Alice" 1 10 none 0) 100 = []
    ∧ (processMentionsNotifs c4Users c4Msg 100).map Notification.recipient_id = [2, 2]
    ∧ (∀ n ∈ processMentionsNotifs c4Users c4Msg 100,
        n.type = NotificationType.mention) := by
  refine ⟨?_, by decide, by decide, by decide⟩
  intro users message nid0 n h
  exact mentionLoop_recipient_ne_author users message _ nid0 n h

/-- Claim C4, witness: the first of the two notifications produced for
the duplicated mention of Bob indeed satisfies the general theorem. -/
theorem processMentions_self_skip_no_dedup_witness :
    (mkMentionNotification 100 c4Bob c4Alice c4Msg).recipient_id ≠ c4Msg.author_id
    ∧ (mkMentionNotification 100 c4Bob c4Alice c4Msg).type = NotificationType.mention :=
  processMentions_self_skip_no_dedup.1 c4Users c4Msg 100
    (mkMentionNotification 100 c4Bob c4Alice c4Msg) (by decide)

/-- Claim C5 (amended): `pinMessage` succeeds exactly when the message
exists, is not deleted, and the requester is a member of its channel —
pinning an already-pinned message succeeds as a no-op rather than
failing with AlreadyInState; `unpinMessage` succeeds exactly when the
message exists, is currently pinned, and the requester is a member —
it performs no deletion check, so a deleted pinned message can be
unpinned.  Successes write the new flag; in every failure case the
store (hence the pinned flag) is unchanged. -/
theorem pin_unpin_characterization (store : Store) (userId : UserId) (id : MsgId) :
    ((pinMessage store userId id).2.isOk = true ↔
      ∃ m, findMessage store.messages id = some m ∧ m.is_deleted = false ∧
        ∃ ch, findChannel store.channels m.channel_id = some ch ∧
          ch.members.contains userId = true)
    ∧ ((unpinMessage store userId id).2.isOk = true ↔
      ∃ m, findMessage store.messages id = some m ∧ m.is_pinned = true ∧
        ∃ ch, findChannel store.channels m.channel_id = some ch ∧
          ch.members.contains userId = true)
    ∧ (∀ m, findMessage store.messages id = some m →
        (pinMessage store userId id).2.isOk = true →
        (pinMessage store userId id).1.messages
          = saveMessage store.messages id { m with is_pinned := true })
    ∧ (∀ m, findMessage store.messages id = some m →
        (unpinMessage store userId id).2.isOk = true →
        (unpinMessage store userId id).1.messages
          = saveMessage store.messages id { m with is_pinned := false })
    ∧ ((pinMessage store userId id).2.isOk = false →
        (pinMessage store userId id).1 = store)
    ∧ ((unpinMessage store userId id).2.isOk = false →
        (unpinMessage store userId id).1 = store) := by
  rcases hm : findMessage store.messages id with _ | m
  · refine ⟨?_, ?_, ?_, ?_, ?_, ?_⟩ <;>
      simp [pinMessage, unpinMessage, hm, HttpResult.isOk]
  · rcases hch : findChannel store.channels m.channel_id with _ | ch
    · refine ⟨?_, ?_, ?_, ?_, ?_, ?_⟩ <;>
        simp only [pinMessage, unpinMessage, hm, hch] <;>
        rcases hd : m.is_deleted <;>
        rcases hp : m.is_pinned <;>
        simp_all [HttpResult.isOk]
    · refine ⟨?_, ?_, ?_, ?_, ?_, ?_⟩ <;>
        simp only [pinMessage, unpinMessage, hm, hch] <;>
        rcases hd : m.is_deleted <;>
        rcases hp : m.is_pinned <;>
        rcases hmem : ch.members.contains userId <;>
        simp_all [HttpResult.isOk]

/-- Claim C5, witness: pinning the already-pinned message 30 succeeds,
unpinning the deleted pinned message 31 succeeds, and a failing pin
(missing message 99) leaves the store unchanged. -/
theorem pin_unpin_characterization_witness :
    (pinMessage c5Store 1 30).2.isOk = true
    ∧ (unpinMessage c5Store 1 31).2.isOk = true
    ∧ (pinMessage c5Store 1 30).1.messages
        = saveMessage c5Store.messages 30 { c5Pinned with is_pinned := true }
    ∧ (pinMessage c5Store 1 99).1 = c5Store :=
  ⟨(pin_unpin_characterization c5Store 1 30).1.mpr
      ⟨c5Pinned, by decide, by decide, c5Channel, by decide, by decide⟩,
   (pin_unpin_characterization c5Store 1 31).2.1.mpr
      ⟨c5DeletedPinned, by decide, by decide, c5Channel, by decide, by decide⟩,
   (pin_unpin_characterization c5Store 1 30).2.2.1 c5Pinned (by decide)
     ((pin_unpin_characterization c5Store 1 30).1.mpr
      ⟨c5Pinned, by decide, by decide, c5Channel, by decide, by decide⟩),
   (pin_unpin_characterization c5Store 1 99).2.2.2.2.1 (by decide)⟩

/-- Claim C6: for a stored message, editing with the clock at
`created_at + 1000·t` milliseconds (t whole seconds after creation)
succeeds exactly when the requester is the author, the message is not
deleted, the new content is non-blank and at most 2000 characters, and
t < 300.  A success stores the new content and sets `is_edited`; at
t = 300 or later (the other conditions met) the request fails with the
edit-window error and the store is unchanged. -/
theorem editMessage_edit_window (store : Store) (uid : UserId) (id : MsgId)
    (content : String) (t : Nat) (m : Message)
    (hfind : findMessage store.messages id = some m) :
    ((editMessage store (m.created_at + 1000 * (t : Int)) uid id content).2.isOk = true ↔
      (m.author_id = uid ∧ m.is_deleted = false ∧ jsTrim content ≠ ""
        ∧ content.length ≤ 2000 ∧ t < 300))
    ∧ ((editMessage store (m.created_at + 1000 * (t : Int)) uid id content).2.isOk = true →
        editMessage store (m.created_at + 1000 * (t : Int)) uid id content
          = ({ store with
                messages := saveMessage store.messages id
                  ({ m with content := content, is_edited := true,
                            updated_at := m.created_at + 1000 * (t : Int) }) },
              HttpResult.ok 200
                ({ m with content := content, is_edited := true,
                          updated_at := m.created_at + 1000 * (t : Int) })))
    ∧ (m.author_id = uid → jsTrim content ≠ "" → content.length ≤ 2000 → 300 ≤ t →
        editMessage store (m.created_at + 1000 * (t : Int)) uid id content
          = (store, .err ⟨"Message can only be edited within 5 minutes of sending", 400⟩)) := by
  by_cases hblank : jsTrim content = ""
  · refine ⟨?_, ?_, ?_⟩
    · simp [editMessage, hblank, HttpResult.isOk]
    · intro hok
      simp [editMessage, hblank, HttpResult.isOk] at hok
    · intro _ h _ _
      exact absurd hblank h
  · by_cases hlen : content.length > 2000
    · refine ⟨?_, ?_, ?_⟩
      · simp [editMessage, hblank, hlen, HttpResult.isOk]
      · intro hok
        simp [editMessage, hblank, hlen, HttpResult.isOk] at hok
      · intro _ _ hle _
        exact absurd hle (by omega)
    · by_cases hauth : m.author_id = uid
      · rcases hdel : m.is_deleted
        · by_cases ht : t < 300
          · have hcan : m.canBeEdited (m.created_at + 1000 * (t : Int)) = true := by
              simp [Message.canBeEdited, hdel]
              omega
            refine ⟨?_, ?_, ?_⟩
            · simp [editMessage, hblank, hlen, hfind, hauth, hcan, hdel, ht,
                HttpResult.isOk]
              omega
            · intro _
              simp [editMessage, hblank, hlen, hfind, hauth, hcan, hdel, HttpResult.isOk]
            · intro _ _ _ hge
              exact absurd hge (by omega)
          · have hcan : m.canBeEdited (m.created_at + 1000 * (t : Int)) = false := by
              simp [Message.canBeEdited, hdel]
              omega
            refine ⟨?_, ?_, ?_⟩
            · simp [editMessage, hblank, hlen, hfind, hauth, hcan, HttpResult.isOk, ht]
            · intro hok
              simp [editMessage, hblank, hlen, hfind, hauth, hcan, HttpResult.isOk] at hok
            · intro _ _ _ _
              simp [editMessage, hblank, hlen, hfind, hauth, hcan]
        · have hcan : m.canBeEdited (m.created_at + 1000 * (t : Int)) = false := by
            simp [Message.canBeEdited, hdel]
          refine ⟨?_, ?_, ?_⟩
          · simp [editMessage, hblank, hlen, hfind, hauth, hcan, hdel, HttpResult.isOk]
          · intro hok
            simp [editMessage, hblank, hlen, hfind, hauth, hcan, HttpResult.isOk] at hok
          · intro _ _ _ _
            simp [editMessage, hblank, hlen, hfind, hauth, hcan]
      · refine ⟨?_, ?_, ?_⟩
        · simp [editMessage, hblank, hlen, hfind, hauth, HttpResult.isOk]
        · intro hok
          simp [editMessage, hblank, hlen, hfind, hauth, HttpResult.isOk] at hok
        · intro h _ _ _
          exact absurd h hauth

def c6Msg : Message := mkMessage 40 "orig" 1 10 none 0

def c6Store : Store := ⟨[], [], [c6Msg], []⟩

/-- Claim C6, witness: at the boundary, editing 299 seconds after
creation succeeds and editing at exactly 300 seconds fails with the
edit-window error, the store unchanged. -/
theorem editMessage_edit_window_witness :
    (editMessage c6Store (c6Msg.created_at + 1000 * ((299 : Nat) : Int)) 1 40
        "new text").2.isOk = true
    ∧ editMessage c6Store (c6Msg.created_at + 1000 * ((300 : Nat) : Int)) 1 40 "new text"
        = (c6Store, .err ⟨"Message can only be edited within 5 minutes of sending", 400⟩) :=
  ⟨(editMessage_edit_window c6Store 1 40 "new text" 299 c6Msg (by decide)).1.mpr
      ⟨by decide, by decide, by decide, by decide, by decide⟩,
   (editMessage_edit_window c6Store 1 40 "new text" 300 c6Msg (by decide)).2.2
      (by decide) (by decide) (by decide) (by decide)⟩

/-- Adding a reaction preserves uniqueness of (emoji, user) pairs. -/
theorem addReaction_unique (m : Message) (emoji : String) (uid : UserId)
    (h : reactionsUnique m) : reactionsUnique (m.addReaction emoji uid) := by
  unfold Message.addReaction
  split
  · exact h
  · rename_i hnone
    unfold reactionsUnique at h ⊢
    simp only [List.map_append, List.map_cons, List.map_nil]
    rw [List.nodup_append]
    refine ⟨h, List.nodup_singleton _, ?_⟩
    intro k hk hk1
    simp only [List.mem_singleton] at hk1
    subst hk1
    rcases List.mem_map.mp hk with ⟨r, hr, hkey⟩
    apply hnone
    refine List.any_eq_true.mpr ⟨r, hr, ?_⟩
    have he : r.emoji = emoji := congrArg Prod.fst hkey
    have hu : r.user_id = uid := congrArg Prod.snd hkey
    simp [he, hu]

/-- Removing a reaction preserves uniqueness of (emoji, user) pairs. -/
theorem removeReaction_unique (m : Message) (emoji : String) (uid : UserId)
    (h : reactionsUnique m) : reactionsUnique (m.removeReaction emoji uid) := by
  unfold Message.removeReaction reactionsUnique
  exact ((List.filter_sublist _).map Reaction.key).nodup h

/-- Claim C7: (emoji, user) pairs in a message's reaction set stay
pairwise distinct under every sequence of add/remove operations;
`addReaction` is a no-op when the identical pair is present and
`removeReaction` is a no-op when the pair is absent. -/
theorem reactions_unique_and_idempotent :
    (∀ (m : Message) (ops : List ReactionOp), reactionsUnique m →
      reactionsUnique (applyReactionOps m ops))
    ∧ (∀ (m : Message) (emoji : String) (uid : UserId),
      m.reactions.any (fun r => r.emoji == emoji && r.user_id == uid) = true →
      m.addReaction emoji uid = m)
    ∧ (∀ (m : Message) (emoji : String) (uid : UserId),
      m.reactions.any (fun r => r.emoji == emoji && r.user_id == uid) = false →
      m.removeReaction emoji uid = m) := by
  refine ⟨?_, ?_, ?_⟩
  · intro m ops
    induction ops generalizing m with
    | nil => intro h; exact h
    | cons op ops ih =>
      intro h
      rcases op with ⟨emoji, uid⟩ | ⟨emoji, uid⟩
      · exact ih _ (addReaction_unique m emoji uid h)
      · exact ih _ (removeReaction_unique m emoji uid h)
  · intro m emoji uid h
    unfold Message.addReaction
    simp [h]
  · intro m emoji uid h
    have heq : List.filter (fun r => !(r.emoji == emoji && r.user_id == uid)) m.reactions
        = m.reactions := by
      apply List.filter_eq_self.mpr
      intro a ha
      have h2 := List.any_eq_false.mp h a ha
      cases hb : (a.emoji == emoji && a.user_id == uid)
      · simp
      · exact absurd hb h2
    unfold Message.removeReaction
    rw [heq]

/-- Claim C7, witness: on a concrete message holding one reaction, a
mixed operation sequence keeps the pairs distinct, re-adding the
existing pair is a no-op, and removing an absent pair is a no-op. -/
theorem reactions_unique_and_idempotent_witness :
    reactionsUnique (applyReactionOps (mkMessage 50 "hi" 1 10 none 0)
      [ReactionOp.add "thumbsup" 1, ReactionOp.add "thumbsup" 1,
        ReactionOp.add "heart" 2, ReactionOp.remove "thumbsup" 1])
    ∧ ({ mkMessage 50 "hi" 1 10 none 0 with
          reactions := [⟨"thumbsup", 1⟩] } : Message).addReaction "thumbsup" 1
        = { mkMessage 50 "hi" 1 10 none 0 with reactions := [⟨"thumbsup", 1⟩] }
    ∧ ({ mkMessage 50 "hi" 1 10 none 0 with
          reactions := [⟨"thumbsup", 1⟩] } : Message).removeReaction "heart" 1
        = { mkMessage 50 "hi" 1 10 none 0 with reactions := [⟨"thumbsup", 1⟩] } :=
  ⟨reactions_unique_and_idempotent.1 (mkMessage 50 "hi" 1 10 none 0) _
      (by simp [reactionsUnique, mkMessage]),
   reactions_unique_and_idempotent.2.1 _ "thumbsup" 1 (by decide),
   reactions_unique_and_idempotent.2.2 _ "heart" 1 (by decide)⟩

/-- Facts about the `findOldestMember` query result: it is one of the
users, it is a member other than the excluded leaver, and none of the
other remaining members was created earlier. -/
theorem findOldestMember_spec {users : List User} {memberIds : List UserId}
    {excludeId : UserId} {u : User}
    (h : findOldestMember users memberIds excludeId = some u) :
    u ∈ users ∧ u._id ∈ memberIds ∧ u._id ≠ excludeId
    ∧ ∀ v ∈ users, v._id ∈ memberIds → v._id ≠ excludeId →
        u.created_at ≤ v.created_at := by
  unfold findOldestMember at h
  have hm : u ∈ users.filter
      (fun v => memberIds.contains v._id && v._id != excludeId) :=
    List.argmin_mem (Option.mem_def.mpr h)
  rcases List.mem_filter.mp hm with ⟨hu, hpred⟩
  simp only [Bool.and_eq_true, bne_iff_ne] at hpred
  refine ⟨hu, by simpa using hpred.1, hpred.2, ?_⟩
  intro v hv hvmem hvne
  have hvf : v ∈ users.filter
      (fun w => memberIds.contains w._id && w._id != excludeId) :=
    List.mem_filter.mpr ⟨hv, by simp [hvmem, hvne]⟩
  exact List.le_of_mem_argmin hvf (Option.mem_def.mpr h)

/-- If some user resolves a member other than the excluded leaver, the
`findOldestMember` query succeeds. -/
theorem findOldestMember_isSome {users : List User} {memberIds : List UserId}
    {excludeId : UserId} (u : User) (hu : u ∈ users) (hmem : u._id ∈ memberIds)
    (hne : u._id ≠ excludeId) :
    ∃ o, findOldestMember users memberIds excludeId = some o := by
  rcases ho : findOldestMember users memberIds excludeId with _ | o
  · exfalso
    unfold findOldestMember at ho
    have hnil := List.argmin_eq_none.mp ho
    have hin : u ∈ users.filter
        (fun v => memberIds.contains v._id && v._id != excludeId) :=
      List.mem_filter.mpr ⟨hu, by simp [hmem, hne]⟩
    rw [hnil] at hin
    simp at hin
  · exact ⟨o, rfl⟩

/-- The channel collection after `leaveChannel` takes one of three
forms: unchanged (an error branch), the target channel removed (last
member left), or the target channel saved back with the leaver filtered
out of a nonempty member list. -/
theorem leaveChannel_channels_cases (store : Store) (uid : UserId) (id : ChannelId) :
    (leaveChannel store uid id).1.channels = store.channels
    ∨ (leaveChannel store uid id).1.channels
        = store.channels.filter (fun c => c._id != id)
    ∨ ∃ ch1 : Channel, (leaveChannel store uid id).1.channels
          = saveChannel store.channels id
              ({ ch1 with members := ch1.members.filter (fun mId => mId != uid) })
        ∧ (ch1.members.filter (fun mId => mId != uid)).isEmpty = false := by
  rcases hfind : findChannel store.channels id with _ | ch
  · simp [leaveChannel, hfind]
  · by_cases htype : ch.type = ChannelType.publicCh
    · by_cases hmem : uid ∈ ch.members
      · by_cases hcond : ch.created_by = uid ∧ 1 < ch.members.length
        · rcases hold : findOldestMember store.users ch.members uid with _ | oldest
          · by_cases hempty : ∀ a ∈ ch.members, a = uid
            · simp [leaveChannel, hfind, htype, hmem, hcond, hold]
              rw [if_pos hempty]
              simp
            · refine Or.inr (Or.inr ⟨ch, ?_, ?_⟩)
              · simp [leaveChannel, hfind, htype, hmem, hcond, hold, hempty, saveChannel]
              · simp only [List.isEmpty_eq_false, ne_eq, List.filter_eq_nil_iff]
                simpa using hempty
          · by_cases hempty : ∀ a ∈ ch.members, a = uid
            · simp [leaveChannel, hfind, htype, hmem, hcond, hold]
              rw [if_pos hempty]
              simp
            · refine Or.inr (Or.inr ⟨({ ch with created_by := oldest._id } : Channel), ?_, ?_⟩)
              · simp [leaveChannel, hfind, htype, hmem, hcond, hold, hempty, saveChannel]
              · simp only [List.isEmpty_eq_false, ne_eq, List.filter_eq_nil_iff]
                simpa using hempty
        · by_cases hempty : ∀ a ∈ ch.members, a = uid
          · simp [leaveChannel, hfind, htype, hmem, hcond]
            rw [if_pos hempty]
            simp
          · refine Or.inr (Or.inr ⟨ch, ?_, ?_⟩)
            · simp [leaveChannel, hfind, htype, hmem, hcond, hempty, saveChannel]
            · simp only [List.isEmpty_eq_false, ne_eq, List.filter_eq_nil_iff]
              simpa using hempty
      · simp [leaveChannel, hfind, htype, hmem]
    · simp [leaveChannel, hfind, htype]

/-- Claim C8: when the creator leaves a public channel and another
member remains, the controller reports Left and hands ownership to a
remaining member with the earliest account-creation time; and the
operation preserves the all-channels-nonempty invariant (a channel
whose member list would become empty is deleted instead). -/
theorem leaveChannel_transfer_and_nonempty :
    (∀ (store : Store) (uid : UserId) (id : ChannelId) (ch : Channel),
      findChannel store.channels id = some ch →
      ch.type = ChannelType.publicCh →
      ch.created_by = uid →
      uid ∈ ch.members →
      1 < ch.members.length →
      (∃ u ∈ store.users, u._id ∈ ch.members ∧ u._id ≠ uid) →
      (leaveChannel store uid id).2 = LeaveOutcome.left
      ∧ ∃ u ∈ store.users,
          u._id ∈ ch.members ∧ u._id ≠ uid
          ∧ (∀ v ∈ store.users, v._id ∈ ch.members → v._id ≠ uid →
              u.created_at ≤ v.created_at)
          ∧ ∃ ch' ∈ (leaveChannel store uid id).1.channels,
              ch'._id = ch._id ∧ ch'.created_by = u._id
              ∧ ch'.members = ch.members.filter (fun mId => mId != uid))
    ∧ (∀ (store : Store) (uid : UserId) (id : ChannelId),
        (∀ ch ∈ store.channels, ch.members ≠ []) →
        ∀ ch' ∈ (leaveChannel store uid id).1.channels, ch'.members ≠ []) := by
  constructor
  · intro store uid id ch hfind htype hcreator hmem hlen hex
    obtain ⟨w, hw_users, hw_mem, hw_ne⟩ := hex
    obtain ⟨oldest, hold⟩ := findOldestMember_isSome w hw_users hw_mem hw_ne
    obtain ⟨ho_users, ho_mem, ho_ne, ho_min⟩ := findOldestMember_spec hold
    have hid : ch._id = id := by
      have := List.find?_some hfind
      simpa using this
    have hch_mem : ch ∈ store.channels := List.mem_of_find?_eq_some hfind
    have hrem : w._id ∈ ch.members.filter (fun mId => mId != uid) :=
      List.mem_filter.mpr ⟨hw_mem, by simp [hw_ne]⟩
    have hempty : (ch.members.filter (fun mId => mId != uid)).isEmpty = false :=
      List.isEmpty_eq_false.mpr (List.ne_nil_of_mem hrem)
    have htypeb : (ch.type == ChannelType.publicCh) = true := by simp [htype]
    have hmemb : ch.members.contains uid = true := by simp [hmem]
    have hcond : (ch.created_by == uid && decide (1 < ch.members.length)) = true := by
      simp [hcreator, hlen]
    have hres2 : (leaveChannel store uid id).2 = LeaveOutcome.left := by
      simp only [leaveChannel, hfind, htypeb, hmemb, hcond, hold, hempty,
        Bool.not_true, Bool.false_eq_true, if_false, if_true]
    have hres1 : (leaveChannel store uid id).1.channels
        = saveChannel store.channels id
            ({ ch with created_by := oldest._id,
                       members := ch.members.filter (fun mId => mId != uid) }) := by
      simp only [leaveChannel, hfind, htypeb, hmemb, hcond, hold, hempty,
        Bool.not_true, Bool.false_eq_true, if_false, if_true]
    refine ⟨hres2, oldest, ho_users, ho_mem, ho_ne, ho_min, ?_⟩
    refine ⟨({ ch with created_by := oldest._id,
                       members := ch.members.filter (fun mId => mId != uid) }), ?_, rfl, rfl, rfl⟩
    rw [hres1]
    simp only [saveChannel]
    refine List.mem_map.mpr ⟨ch, hch_mem, ?_⟩
    simp [hid]
  · intro store uid id hinv ch' hch'
    rcases leaveChannel_channels_cases store uid id with hc | hc | ⟨ch1, hc, hne⟩
    · rw [hc] at hch'
      exact hinv ch' hch'
    · rw [hc] at hch'
      exact hinv ch' (List.mem_filter.mp hch').1
    · rw [hc] at hch'
      simp only [saveChannel] at hch'
      rcases List.mem_map.mp hch' with ⟨x, hx, hfx⟩
      by_cases hxe : (x._id == id) = true
      · rw [if_pos hxe] at hfx
        subst hfx
        exact List.isEmpty_eq_false.mp hne
      · rw [if_neg (by simpa using hxe)] at hfx
        subst hfx
        exact hinv x hx
def c8Ann : User := ⟨1, "ann", false, 0, 100⟩
def c8Ben : User := ⟨2, "ben", false, 0, 50⟩
def c8Cara : User := ⟨3, "cara", false, 0, 70⟩
def c8Channel : Channel := ⟨10, "general", .publicCh, 1, [1, 2, 3], 0⟩
def c8Store : Store := ⟨[c8Ann, c8Ben, c8Cara], [c8Channel], [], []⟩

/-- Claim C8, witness: the creator of a three-member public channel
leaves; the outcome is Left, ownership moves to an earliest-created
remaining member, and no channel is left memberless. -/
theorem leaveChannel_transfer_and_nonempty_witness :
    ((leaveChannel c8Store 1 10).2 = LeaveOutcome.left
      ∧ ∃ u ∈ c8Store.users,
          u._id ∈ c8Channel.members ∧ u._id ≠ 1
          ∧ (∀ v ∈ c8Store.users, v._id ∈ c8Channel.members → v._id ≠ 1 →
              u.created_at ≤ v.created_at)
          ∧ ∃ ch' ∈ (leaveChannel c8Store 1 10).1.channels,
              ch'._id = c8Channel._id ∧ ch'.created_by = u._id
              ∧ ch'.members = c8Channel.members.filter (fun mId => mId != 1))
    ∧ (∀ ch' ∈ (leaveChannel c8Store 1 10).1.channels, ch'.members ≠ []) :=
  ⟨leaveChannel_transfer_and_nonempty.1 c8Store 1 10 c8Channel (by decide) (by decide)
      (by decide) (by decide) (by decide) ⟨c8Ben, by decide, by decide, by decide⟩,
   leaveChannel_transfer_and_nonempty.2 c8Store 1 10 (by decide)⟩

/-- Two channels hold the same member set. -/
def sameMembers (c1 c2 : Channel) : Prop :=
  ∀ x, x ∈ c1.members ↔ x ∈ c2.members

/-- Every dm channel has exactly two member entries. -/
def dmSize2 (channels : List Channel) : Prop :=
  ∀ c ∈ channels, c.type = ChannelType.dm → c.members.length = 2

/-- No two dm channels (at distinct positions) share a member set: at
most one dm channel exists per unordered user pair. -/
def dmUnique (channels : List Channel) : Prop :=
  channels.Pairwise (fun c1 c2 =>
    ¬(c1.type = ChannelType.dm ∧ c2.type = ChannelType.dm ∧ sameMembers c1 c2))

/-- Claim C9: DM lookup-or-create is deterministic — when the other
user exists, a call returns some channel and an immediate second call
for the same pair returns that same channel with the store unchanged —
and it preserves the at-most-one-dm-channel-per-pair invariant
(together with the two-member shape of dm channels). -/
theorem createDmChannel_deterministic_unique :
    (∀ (store : Store) (a b : UserId) (now1 now2 : Int) (id1 id2 : ChannelId),
      (findUser store.users b).isSome = true →
      ∃ (st1 : Store) (c1 : Channel) (s1 : Nat),
        createDmChannel store a b now1 id1 = (st1, HttpResult.ok s1 c1)
        ∧ createDmChannel st1 a b now2 id2 = (st1, HttpResult.ok 200 c1))
    ∧ (∀ (store : Store) (a b : UserId) (now : Int) (newId : ChannelId),
      dmSize2 store.channels → dmUnique store.channels →
      dmSize2 (createDmChannel store a b now newId).1.channels
      ∧ dmUnique (createDmChannel store a b now newId).1.channels) := by
  constructor
  · intro store a b now1 now2 id1 id2 hb
    rcases Option.isSome_iff_exists.mp hb with ⟨bu, hbu⟩
    rcases hfd : findDmChannel store.channels a b with _ | c
    · refine ⟨{ store with channels := store.channels ++
          [⟨id1, "dm-" ++ toString a ++ "-" ++ toString b, .dm, a, [a, b], now1⟩] },
        ⟨id1, "dm-" ++ toString a ++ "-" ++ toString b, .dm, a, [a, b], now1⟩, 201, ?_, ?_⟩
      · simp [createDmChannel, hbu, hfd]
      · have hfd2 : findDmChannel (store.channels ++
            [(⟨id1, "dm-" ++ toString a ++ "-" ++ toString b, .dm, a, [a, b], now1⟩ : Channel)]) a b
            = some ⟨id1, "dm-" ++ toString a ++ "-" ++ toString b, .dm, a, [a, b], now1⟩ := by
          unfold findDmChannel at hfd ⊢
          rw [List.find?_append, hfd]
          simp
        simp [createDmChannel, hbu, hfd2]
    · exact ⟨store, c, 200, by simp [createDmChannel, hbu, hfd], by simp [createDmChannel, hbu, hfd]⟩
  · intro store a b now newId hs hu
    rcases hfu : findUser store.users b with _ | bu
    · simpa [createDmChannel, hfu] using ⟨hs, hu⟩
    · rcases hfd : findDmChannel store.channels a b with _ | c
      · have hchannels : (createDmChannel store a b now newId).1.channels
            = store.channels ++
              [⟨newId, "dm-" ++ toString a ++ "-" ++ toString b, .dm, a, [a, b], now⟩] := by
          simp [createDmChannel, hfu, hfd]
        rw [hchannels]
        constructor
        · intro c hc hdm
          rcases List.mem_append.mp hc with hc1 | hc2
          · exact hs c hc1 hdm
          · simp only [List.mem_singleton] at hc2
            subst hc2
            rfl
        · refine List.pairwise_append.mpr ⟨hu, List.pairwise_singleton _ _, ?_⟩
          intro x hx y hy
          simp only [List.mem_singleton] at hy
          subst hy
          rintro ⟨hxdm, _, hsame⟩
          have hnone := List.find?_eq_none.mp hfd x hx
          apply hnone
          have hlen := hs x hx hxdm
          have ha : a ∈ x.members := (hsame a).mpr (by simp)
          have hb2 : b ∈ x.members := (hsame b).mpr (by simp)
          simp [hxdm, hlen, ha, hb2]
      · simpa [createDmChannel, hfu, hfd] using ⟨hs, hu⟩

def c9Store : Store := ⟨[⟨7, "uma", false, 0, 0⟩, ⟨8, "vik", false, 0, 0⟩], [], [], []⟩

/-- Claim C9, witness: on a store with users 7 and 8 and no channels,
two successive dm calls for the pair return one and the same channel,
and the dm invariants hold afterwards. -/
theorem createDmChannel_deterministic_unique_witness :
    (∃ (st1 : Store) (c1 : Channel) (s1 : Nat),
      createDmChannel c9Store 7 8 5 100 = (st1, HttpResult.ok s1 c1)
      ∧ createDmChannel st1 7 8 6 101 = (st1, HttpResult.ok 200 c1))
    ∧ (dmSize2 (createDmChannel c9Store 7 8 5 100).1.channels
      ∧ dmUnique (createDmChannel c9Store 7 8 5 100).1.channels) :=
  ⟨createDmChannel_deterministic_unique.1 c9Store 7 8 5 6 100 101 (by decide),
   createDmChannel_deterministic_unique.2 c9Store 7 8 5 100
     (by simp [dmSize2, c9Store]) (by simp [dmUnique, c9Store])⟩

/-- Claim C10: marking notifications as read never touches another
recipient's records — for any id list passed (or none), a stored
notification whose recipient is not the requester is left unchanged at
its position, even when its id appears in the list — and the no-ids
bulk form marks exactly the requester's notifications as read. -/
theorem markAsRead_frame (notifications : List Notification) (userId : UserId)
    (ids : Option (List NotifId)) :
    (∀ (i : Nat) (n : Notification), notifications[i]? = some n →
      n.recipient_id ≠ userId →
      (markAsReadController notifications userId ids)[i]? = some n)
    ∧ markAsReadController notifications userId none
        = notifications.map (fun n =>
            if n.recipient_id = userId then { n with is_read := true } else n) := by
  have key : ∀ (l : List NotifId) (i : Nat) (n : Notification),
      notifications[i]? = some n → n.recipient_id ≠ userId →
      (Notification.markAsRead notifications userId l)[i]? = some n := by
    intro l i n hget hne
    unfold Notification.markAsRead
    rw [List.getElem?_map, hget]
    simp [hne]
  constructor
  · intro i n hget hne
    unfold markAsReadController
    rcases ids with _ | l
    · exact key [] i n hget hne
    · dsimp only
      split
      · exact key l i n hget hne
      · exact key [] i n hget hne
  · unfold markAsReadController Notification.markAsRead
    apply List.map_congr_left
    intro n _
    by_cases h : n.recipient_id = userId <;> simp [h]

def c10N1 : Notification := ⟨100, 1, 3, .mention, none, none, "for user 1", false⟩
def c10N2 : Notification := ⟨101, 2, 3, .mention, none, none, "for user 2", false⟩

/-- Claim C10, witness: user 1 bulk-marks ids 100 and 101 as read; the
notification with id 101, which belongs to user 2, is unchanged. -/
theorem markAsRead_frame_witness :
    (markAsReadController [c10N1, c10N2] 1 (some [100, 101]))[1]? = some c10N2 :=
  (markAsRead_frame [c10N1, c10N2] 1 (some [100, 101])).1 1 c10N2 (by decide) (by decide)

end SlackClone
